import Mathlib

set_option maxRecDepth 20000

/-!
Verification of the SnapPy Live Filters placement-and-compositing core
(`app.py`) against its specification.

The embedding below translates the Python source:
* images (`numpy` arrays) become `Img`: explicit width/height/channel counts
  with a total pixel function into byte values (`Fin 256`);
* Python `float` arithmetic on landmark coordinates and tuning constants is
  modelled exactly over `ℚ`, with square roots and the four-quadrant
  arctangent over `ℝ`;
* Python `int()` (truncation toward zero) becomes `pyIntQ` / `pyIntR`,
  Python `//` on integers becomes `Int.fdiv`;
* `numpy`'s `.astype(np.uint8)` cast becomes `toUint8` (truncate, then take
  the value mod 256), and `cv2.addWeighted`'s saturating half-to-even
  rounding becomes `satUint8 ∘ cvRound`;
* the external `cv2.resize` / `cv2.warpAffine` calls are parameters of
  `overlay_filter`; `cv2.resize` raises on a non-positive target size, which
  the embedding reports as `none`;
* the raised `cv2.error` exception is the `none` value of `Option Img`.
-/

namespace SnapPy

/-- A raster image: a pixel grid with an explicit channel count.  Pixel
values are bytes.  The pixel function is total; reads outside the declared
bounds are never performed by the embedded code paths under scrutiny. -/
structure Img where
  width : ℕ
  height : ℕ
  channels : ℕ
  px : ℕ → ℕ → ℕ → Fin 256

theorem Img.ext_px {a b : Img} (hw : a.width = b.width) (hh : a.height = b.height)
    (hc : a.channels = b.channels) (hp : a.px = b.px) : a = b := by
  cases a; cases b; cases hw; cases hh; cases hc; cases hp; rfl

/-- Python `int()` applied to an exact rational: truncation toward zero. -/
def pyIntQ (q : ℚ) : ℤ := if 0 ≤ q then ⌊q⌋ else ⌈q⌉

open Classical in
/-- Python `int()` applied to a real value: truncation toward zero. -/
noncomputable def pyIntR (r : ℝ) : ℤ := if 0 ≤ r then ⌊r⌋ else ⌈r⌉

/-- `numpy` `.astype(np.uint8)` on a float value: C-style truncation to an
integer followed by reduction modulo 256. -/
def toUint8 (q : ℚ) : Fin 256 := ⟨(pyIntQ q % 256).toNat, by omega⟩

/-- OpenCV's `cvRound`: round half to even. -/
def cvRound (q : ℚ) : ℤ :=
  if q + 1/2 = (⌊q + 1/2⌋ : ℚ) ∧ ⌊q + 1/2⌋ % 2 = 1 then ⌊q + 1/2⌋ - 1 else ⌊q + 1/2⌋

/-- OpenCV's saturating cast of an integer to `uint8`. -/
def satUint8 (n : ℤ) : Fin 256 := ⟨(max 0 (min 255 n)).toNat, by omega⟩

/-- One channel of the alpha blend at app.py:206-209: the per-pixel weight is
`(alpha_channel / 255) * alpha`, and the blended value is a truncated convex
combination of the frame and filter channel values. -/
def blendChannel4 (f g A : Fin 256) (alpha : ℚ) : Fin 256 :=
  toUint8 ((f : ℚ) * (1 - (A : ℚ) / 255 * alpha) + (g : ℚ) * ((A : ℚ) / 255 * alpha))

/-- One channel of `cv2.addWeighted(frame_region, 1 - alpha, filter_region,
alpha, 0)` at app.py:212 (the no-alpha-channel branch): a rounded, saturated
cross-dissolve. -/
def blendChannelW (f g : Fin 256) (alpha : ℚ) : Fin 256 :=
  satUint8 (cvRound ((f : ℚ) * (1 - alpha) + (g : ℚ) * alpha))

/-- app.py:177-216: the part of `overlay_filter` after the `cv2` resize and
rotation calls, acting on the prepared (`filter_resized`) asset: position the
box, bail out when it misses the frame, clip to the intersection rectangle,
blend, and write the region back. -/
def overlay_core (frame filtR : Img) (x y width height : ℤ) (alpha : ℚ) : Img :=
  let w : ℤ := frame.width
  let h : ℤ := frame.height
  let x1 := x - width.fdiv 2
  let y1 := y - height.fdiv 2
  let x2 := x1 + width
  let y2 := y1 + height
  if x2 ≤ 0 ∨ y2 ≤ 0 ∨ x1 ≥ w ∨ y1 ≥ h then frame
  else
    let fx1 := max 0 x1
    let fy1 := max 0 y1
    let fx2 := min w x2
    let fy2 := min h y2
    let gx1 := max 0 (-x1)
    let gy1 := max 0 (-y1)
    { frame with
      px := fun i j c =>
        if fy1 ≤ (i : ℤ) ∧ (i : ℤ) < fy2 ∧ fx1 ≤ (j : ℤ) ∧ (j : ℤ) < fx2 then
          let fi := (gy1 + ((i : ℤ) - fy1)).toNat
          let fj := (gx1 + ((j : ℤ) - fx1)).toNat
          if filtR.channels = 4 then
            blendChannel4 (frame.px i j c) (filtR.px fi fj c) (filtR.px fi fj 3) alpha
          else
            blendChannelW (frame.px i j c) (filtR.px fi fj c) alpha
        else frame.px i j c }

open Classical in
/-- app.py:148-216, `overlay_filter`.  The external `cv2.resize` and
`cv2.warpAffine` calls are passed in as the `resize` and `rotate` parameters;
`cv2.resize` raises a `cv2.error` when the requested size has a non-positive
width or height (an empty `dsize` with zero scale factors), which the
embedding reports as `none`. -/
noncomputable def overlay_filter (resize : Img → ℤ → ℤ → Img) (rotate : Img → ℝ → Img)
    (frame filt : Img) (x y width height : ℤ) (angle : ℝ) (alpha : ℚ) : Option Img :=
  if width ≤ 0 ∨ height ≤ 0 then none
  else
    let filter_resized := resize filt width height
    let filter_resized := if angle = 0 then filter_resized else rotate filter_resized angle
    some (overlay_core frame filter_resized x y width height alpha)

/-- The blend result as a frame, defaulting to the input frame when the
compositor raises. -/
noncomputable def blendOut (resize : Img → ℤ → ℤ → Img) (rotate : Img → ℝ → Img)
    (frame filt : Img) (x y width height : ℤ) (angle : ℝ) (alpha : ℚ) : Img :=
  (overlay_filter resize rotate frame filt x y width height angle alpha).getD frame

/-- app.py:102-104, `calculate_distance`: Euclidean distance between two
points (`np.sqrt((x1-x2)**2 + (y1-y2)**2)`). -/
noncomputable def calculate_distance (point1 point2 : ℚ × ℚ) : ℝ :=
  Real.sqrt (((point1.1 - point2.1 : ℚ) : ℝ) ^ 2 + ((point1.2 - point2.2 : ℚ) : ℝ) ^ 2)

/-- app.py:106-111, `calculate_angle`: the signed angle in degrees of the
vector `point1 → point2`, via the four-quadrant arctangent
(`np.degrees(np.arctan2(dy, dx))`); `Complex.arg ⟨dx, dy⟩` is exactly
`atan2 dy dx` over the reals. -/
noncomputable def calculate_angle (point1 point2 : ℚ × ℚ) : ℝ :=
  180 / Real.pi * Complex.arg ⟨((point2.1 - point1.1 : ℚ) : ℝ), ((point2.2 - point1.2 : ℚ) : ℝ)⟩

/-- app.py:58-100, the `LANDMARKS` table mapping semantic facial-feature
names to MediaPipe FaceMesh landmark indices. -/
def LANDMARKS : List (String × ℕ) :=
  [("chin", 18), ("jaw_left", 172), ("jaw_right", 397),
   ("left_eye_left", 33), ("left_eye_right", 133), ("left_eye_top", 159),
   ("left_eye_bottom", 145), ("left_eye_center", 468),
   ("right_eye_left", 362), ("right_eye_right", 263), ("right_eye_top", 386),
   ("right_eye_bottom", 374), ("right_eye_center", 469),
   ("nose_tip", 1), ("nose_bridge_top", 6), ("nose_left", 131), ("nose_right", 360),
   ("mouth_left", 61), ("mouth_right", 291), ("mouth_top", 13), ("mouth_bottom", 14),
   ("mouth_center_top", 13), ("mouth_center_bottom", 14),
   ("forehead", 10), ("left_ear", 234), ("right_ear", 454), ("head_top", 10)]

/-- Python dict access `LANDMARKS[name]` (every name used by the embedded
code is present in the table, so the default is never produced). -/
def landmarkIdx (name : String) : ℕ := (LANDMARKS.lookup name).getD 0

/-- app.py:113-118, `get_landmark_point`: a landmark set is the ordered list
of per-face normalized points; an index at or beyond its length is the
defined `Missing` signal (`None`). -/
def get_landmark_point (lms : List (ℚ × ℚ)) (idx : ℕ) : Option (ℚ × ℚ) :=
  if lms.length ≤ idx then none else lms[idx]?

/-- A resolved placement: center, size, rotation and opacity for one filter
overlay (spec §3). -/
structure Placement where
  center_x : ℤ
  center_y : ℤ
  width : ℤ
  height : ℤ
  angle : ℝ
  opacity : ℚ

/-- app.py:218-252, the placement-computing part of `apply_sunglasses` (the
sunglasses placement resolver of spec §4.4): look up the four eye-corner
landmarks, return `Insufficient` (`none`) if any is missing, otherwise
denormalize, and build the placement from the outer-corner distance,
midpoint and tilt with the 2.2/0.6 size multipliers and opacity 0.9. -/
noncomputable def apply_sunglasses_placement (lms : List (ℚ × ℚ))
    (frame_width frame_height : ℤ) : Option Placement :=
  match get_landmark_point lms (landmarkIdx "left_eye_left"),
        get_landmark_point lms (landmarkIdx "left_eye_right"),
        get_landmark_point lms (landmarkIdx "right_eye_left"),
        get_landmark_point lms (landmarkIdx "right_eye_right") with
  | some left_eye_left, some _, some _, some right_eye_right =>
    let lel : ℤ × ℤ :=
      (pyIntQ (left_eye_left.1 * frame_width), pyIntQ (left_eye_left.2 * frame_height))
    let rer : ℤ × ℤ :=
      (pyIntQ (right_eye_right.1 * frame_width), pyIntQ (right_eye_right.2 * frame_height))
    let eye_width : ℝ := calculate_distance ((lel.1 : ℚ), (lel.2 : ℚ)) ((rer.1 : ℚ), (rer.2 : ℚ))
    let center_x := (lel.1 + rer.1).fdiv 2
    let center_y := (lel.2 + rer.2).fdiv 2
    let angle := calculate_angle ((lel.1 : ℚ), (lel.2 : ℚ)) ((rer.1 : ℚ), (rer.2 : ℚ))
    some ⟨center_x, center_y, pyIntR (eye_width * (11/5 : ℚ)), pyIntR (eye_width * (3/5 : ℚ)),
          angle, 9/10⟩
  | _, _, _, _ => none

/-- app.py:41-48, the `available_filters` mapping. -/
def available_filters (name : String) : Option String :=
  if name = "sunglasses" then some "sunglasses.png"
  else if name = "hat" then some "hat.png"
  else if name = "crown" then some "crown.png"
  else if name = "mask" then some "mask.png"
  else if name = "spiderman" then some "spiderman.png"
  else if name = "full_face_mask" then some "full_face_mask.png"
  else none

/-- app.py:51, `FILTERS_DIR = os.path.join('static', 'filters')`. -/
def FILTERS_DIR : String := "static/filters"

/-- app.py:120-146, `load_filter_image`.  The module-level `filter_cache`
dict is passed and returned explicitly; `disk` is the external
`os.path.exists` + `cv2.imread` pair, returning `none` when the file is
missing or fails to decode. -/
def load_filter_image (cache : String → Option Img) (disk : String → Option Img)
    (filter_name : String) : Option Img × (String → Option Img) :=
  match available_filters filter_name with
  | none => (none, cache)
  | some fname =>
    match cache filter_name with
    | some img => (some img, cache)
    | none =>
      match disk (FILTERS_DIR ++ "/" ++ fname) with
      | some filter_img =>
        (some filter_img, fun k => if k = filter_name then some filter_img else cache k)
      | none => (none, cache)

/-! ### Concrete fixtures used by counterexamples and witnesses -/

/-- The spec §8 concrete scenario's synthetic landmark set: a full-length
FaceMesh landmark list with the left/right outer eye corners at normalized
(0.3, 0.45) and (0.7, 0.45); every landmark the resolver reads is present. -/
def c3Landmarks : List (ℚ × ℚ) :=
  ((List.replicate 363 ((1/2 : ℚ), (1/2 : ℚ))).set 33 (3/10, 9/20)).set 263 (7/10, 9/20)

/-- A landmark set of length 264: both outer eye corners (indices 33 and
263) are present, but the right eye's inner corner (index 362) is missing. -/
def c2Landmarks : List (ℚ × ℚ) := List.replicate 264 ((1/2 : ℚ), (1/2 : ℚ))

/-- A dimension-respecting stand-in for `cv2.resize`, used to instantiate
witnesses. -/
def wResize (a : Img) (w h : ℤ) : Img := ⟨w.toNat, h.toNat, a.channels, a.px⟩

/-- A dimension-preserving stand-in for `cv2.warpAffine`, used to
instantiate witnesses. -/
def wRotate (a : Img) (_ : ℝ) : Img := a

/-- A concrete 4×4 3-channel frame. -/
def wFrame : Img := ⟨4, 4, 3, fun _ _ _ => 7⟩

/-- A concrete 1×1 4-channel asset whose alpha channel is everywhere 255. -/
def wAsset4 : Img := ⟨1, 1, 4, fun _ _ c => if c = 3 then 255 else 9⟩

/-- The asset's alpha channel is 255 (fully opaque) at every pixel. -/
def alphaOpaque (a : Img) : Prop := ∀ r c, a.px r c 3 = 255

/-- The empty starting cache. -/
def wCache0 : String → Option Img := fun _ => none

/-- A disk oracle on which every path decodes to `wAsset4`. -/
def wDisk : String → Option Img := fun _ => some wAsset4

/-- The cache produced by a first successful load of "sunglasses". -/
def wCache1 : String → Option Img := (load_filter_image wCache0 wDisk "sunglasses").2

/-- A second disk oracle on which every load fails, showing the second call
performs no I/O. -/
def wDisk2 : String → Option Img := fun _ => none

/-! ### Helper lemmas -/

theorem idx_lel : landmarkIdx "left_eye_left" = 33 := rfl

theorem idx_ler : landmarkIdx "left_eye_right" = 133 := rfl

theorem idx_rel : landmarkIdx "right_eye_left" = 362 := rfl

theorem idx_rer : landmarkIdx "right_eye_right" = 263 := rfl

theorem pyIntR_nonneg (r : ℝ) (h : 0 ≤ r) : pyIntR r = ⌊r⌋ := by
  unfold pyIntR
  exact if_pos h

theorem toUint8_coe (f : Fin 256) : toUint8 ((f : ℕ) : ℚ) = f := by
  apply Fin.ext
  show ((pyIntQ ((f : ℕ) : ℚ)) % 256).toNat = (f : ℕ)
  unfold pyIntQ
  rw [if_pos (by positivity), Int.floor_natCast]
  have h2 := f.isLt
  omega

theorem blendChannel4_zero (f g A : Fin 256) : blendChannel4 f g A 0 = f := by
  unfold blendChannel4
  rw [show (f : ℚ) * (1 - (A : ℚ) / 255 * 0) + (g : ℚ) * ((A : ℚ) / 255 * 0)
      = ((f : ℕ) : ℚ) by ring]
  exact toUint8_coe f

theorem blendChannelW_zero (f g : Fin 256) : blendChannelW f g 0 = f := by
  unfold blendChannelW
  rw [show (f : ℚ) * (1 - 0) + (g : ℚ) * 0 = ((f : ℕ) : ℚ) by ring]
  unfold cvRound satUint8
  have h1 : ⌊((f : ℕ) : ℚ) + 1/2⌋ = ((f : ℕ) : ℤ) := by
    rw [Int.floor_eq_iff]
    constructor
    · push_cast; linarith
    · push_cast; linarith
  rw [h1]
  rw [if_neg]
  · apply Fin.ext
    have h2 := f.isLt
    simp only
    omega
  · rintro ⟨hq, _⟩
    have hne : ((f : ℕ) : ℚ) + 1/2 ≠ ((f : ℕ) : ℚ) := by
      intro hcontra
      have h3 := congrArg (fun z => z - ((f : ℕ) : ℚ)) hcontra
      norm_num at h3
    exact hne hq

theorem blendChannel4_opaque (f g : Fin 256) : blendChannel4 f g 255 1 = g := by
  unfold blendChannel4
  rw [show ((255 : Fin 256) : ℕ) = 255 from rfl]
  rw [show (f : ℚ) * (1 - ((255 : ℕ) : ℚ) / 255 * 1) + (g : ℚ) * (((255 : ℕ) : ℚ) / 255 * 1)
      = ((g : ℕ) : ℚ) by push_cast; ring_nf]
  exact toUint8_coe g

theorem overlay_core_width (frame filtR : Img) (x y w h : ℤ) (alpha : ℚ) :
    (overlay_core frame filtR x y w h alpha).width = frame.width := by
  unfold overlay_core
  dsimp only
  split <;> rfl

theorem overlay_core_height (frame filtR : Img) (x y w h : ℤ) (alpha : ℚ) :
    (overlay_core frame filtR x y w h alpha).height = frame.height := by
  unfold overlay_core
  dsimp only
  split <;> rfl

theorem overlay_core_zero_alpha (frame filtR : Img) (x y w h : ℤ) :
    overlay_core frame filtR x y w h 0 = frame := by
  unfold overlay_core
  dsimp only
  split
  · rfl
  · apply Img.ext_px
    · rfl
    · rfl
    · rfl
    funext i j c
    dsimp only
    split
    · split
      · exact blendChannel4_zero _ _ _
      · exact blendChannelW_zero _ _
    · rfl

theorem overlay_core_miss (frame filtR : Img) (x y w h : ℤ) (alpha : ℚ)
    (hmiss : x - w.fdiv 2 + w ≤ 0 ∨ y - h.fdiv 2 + h ≤ 0 ∨
      (frame.width : ℤ) ≤ x - w.fdiv 2 ∨ (frame.height : ℤ) ≤ y - h.fdiv 2) :
    overlay_core frame filtR x y w h alpha = frame := by
  unfold overlay_core
  dsimp only
  rw [if_pos (by omega)]

theorem overlay_core_outside (frame filtR : Img) (x y w h : ℤ) (alpha : ℚ) (i j c : ℕ)
    (hout : (i : ℤ) < max 0 (y - h.fdiv 2) ∨ min (frame.height : ℤ) (y - h.fdiv 2 + h) ≤ (i : ℤ) ∨
      (j : ℤ) < max 0 (x - w.fdiv 2) ∨ min (frame.width : ℤ) (x - w.fdiv 2 + w) ≤ (j : ℤ)) :
    (overlay_core frame filtR x y w h alpha).px i j c = frame.px i j c := by
  unfold overlay_core
  dsimp only
  split
  · rfl
  · dsimp only
    rw [if_neg (by omega)]

/-! ### Claim theorems -/

/-- C1 (counterexample): the claim "for every placement whose width or
height is non-positive, blend is a silent no-op returning the frame
unchanged with no error" is false on the code: with width 0 the
`cv2.resize` call at app.py:166 is reached before any boundary check and
raises, so `overlay_filter` neither returns the frame unchanged nor
succeeds at all. -/
theorem overlay_filter_zero_area_raises_cex :
    overlay_filter wResize wRotate wFrame wAsset4 10 10 0 6 0 (9/10) = none ∧
    overlay_filter wResize wRotate wFrame wAsset4 10 10 0 6 0 (9/10) ≠ some wFrame := by
  have hz : overlay_filter wResize wRotate wFrame wAsset4 10 10 0 6 0 (9/10) = none := by
    unfold overlay_filter
    rw [if_pos (Or.inl le_rfl)]
  exact ⟨hz, by rw [hz]; simp⟩

/-- C1 (amended): for every placement whose width or height is
non-positive, `overlay_filter` raises a resize error (modelled as `none`)
rather than silently returning the frame: the `cv2.resize` call precedes
the boundary check and rejects a non-positive target size. -/
theorem overlay_filter_nonpositive_size_raises (resize : Img → ℤ → ℤ → Img)
    (rotate : Img → ℝ → Img) (frame filt : Img) (x y width height : ℤ)
    (angle : ℝ) (alpha : ℚ) (hbad : width ≤ 0 ∨ height ≤ 0) :
    overlay_filter resize rotate frame filt x y width height angle alpha = none := by
  unfold overlay_filter
  rw [if_pos hbad]

/-- C1 (witness): the amended claim at the concrete size (-2, 7). -/
theorem overlay_filter_nonpositive_size_raises_witness :
    ((-2 : ℤ) ≤ 0 ∨ (7 : ℤ) ≤ 0) ∧
    overlay_filter wResize wRotate wFrame wAsset4 1 1 (-2) 7 0 1 = none :=
  ⟨Or.inl (by decide),
   overlay_filter_nonpositive_size_raises wResize wRotate wFrame wAsset4 1 1 (-2) 7 0 1
     (Or.inl (by decide))⟩

/-- C2 (counterexample): the claim "whenever both outer eye corners are
present the sunglasses resolver produces a placement" is false: on a
264-landmark set both outer corners (indices 33 and 263) are present, yet
the resolver returns `Insufficient` because the right eye's inner corner
(index 362) is also required and is missing. -/
theorem sunglasses_outer_corners_present_yet_insufficient :
    apply_sunglasses_placement c2Landmarks 640 480 = none ∧
    get_landmark_point c2Landmarks (landmarkIdx "left_eye_left") = some (1/2, 1/2) ∧
    get_landmark_point c2Landmarks (landmarkIdx "right_eye_right") = some (1/2, 1/2) := by
  have h33 : get_landmark_point c2Landmarks (landmarkIdx "left_eye_left") = some (1/2, 1/2) := by
    rw [idx_lel]
    simp [get_landmark_point, c2Landmarks, List.getElem?_replicate]
  have h133 : get_landmark_point c2Landmarks (landmarkIdx "left_eye_right") = some (1/2, 1/2) := by
    rw [idx_ler]
    simp [get_landmark_point, c2Landmarks, List.getElem?_replicate]
  have h362 : get_landmark_point c2Landmarks (landmarkIdx "right_eye_left") = none := by
    rw [idx_rel]
    simp [get_landmark_point, c2Landmarks]
  have h263 : get_landmark_point c2Landmarks (landmarkIdx "right_eye_right") = some (1/2, 1/2) := by
    rw [idx_rer]
    simp [get_landmark_point, c2Landmarks, List.getElem?_replicate]
  refine ⟨?_, h33, h263⟩
  unfold apply_sunglasses_placement
  rw [h33, h133, h362, h263]

/-- C2 (amended): the sunglasses resolver returns `Insufficient` if and
only if at least one of the four eye-corner landmarks it reads — the outer
AND inner corners of both eyes (indices 33, 133, 362, 263) — is missing;
whenever all four are present it produces a placement. -/
theorem sunglasses_insufficient_iff_any_eye_corner_missing
    (lms : List (ℚ × ℚ)) (W H : ℤ) :
    apply_sunglasses_placement lms W H = none ↔
      (get_landmark_point lms (landmarkIdx "left_eye_left") = none ∨
       get_landmark_point lms (landmarkIdx "left_eye_right") = none ∨
       get_landmark_point lms (landmarkIdx "right_eye_left") = none ∨
       get_landmark_point lms (landmarkIdx "right_eye_right") = none) := by
  unfold apply_sunglasses_placement
  rcases h1 : get_landmark_point lms (landmarkIdx "left_eye_left") with _ | p1 <;>
    rcases h2 : get_landmark_point lms (landmarkIdx "left_eye_right") with _ | p2 <;>
      rcases h3 : get_landmark_point lms (landmarkIdx "right_eye_left") with _ | p3 <;>
        rcases h4 : get_landmark_point lms (landmarkIdx "right_eye_right") with _ | p4 <;>
          simp

/-- C3: on a 640×480 frame with the outer eye corners at normalized
(0.3, 0.45) and (0.7, 0.45) and all landmarks the resolver reads present,
the sunglasses resolver yields center (320, 216), angle 0°, width 563
(int of 2.2 × the 256-pixel eye distance), height 153 (int of 0.6 × 256),
and opacity 0.9. -/
theorem sunglasses_concrete_scenario_640x480 :
    apply_sunglasses_placement c3Landmarks 640 480 =
      some ⟨320, 216, 563, 153, 0, 9/10⟩ := by
  have h33 : get_landmark_point c3Landmarks (landmarkIdx "left_eye_left")
      = some (3/10, 9/20) := by
    rw [idx_lel]
    simp [get_landmark_point, c3Landmarks, List.getElem?_set, List.getElem?_replicate]
  have h133 : get_landmark_point c3Landmarks (landmarkIdx "left_eye_right")
      = some (1/2, 1/2) := by
    rw [idx_ler]
    simp [get_landmark_point, c3Landmarks, List.getElem?_set, List.getElem?_replicate]
  have h362 : get_landmark_point c3Landmarks (landmarkIdx "right_eye_left")
      = some (1/2, 1/2) := by
    rw [idx_rel]
    simp [get_landmark_point, c3Landmarks, List.getElem?_set, List.getElem?_replicate]
  have h263 : get_landmark_point c3Landmarks (landmarkIdx "right_eye_right")
      = some (7/10, 9/20) := by
    rw [idx_rer]
    simp [get_landmark_point, c3Landmarks, List.getElem?_set, List.getElem?_replicate]
  unfold apply_sunglasses_placement
  rw [h33, h133, h362, h263]
  have hd : calculate_distance ((192 : ℚ), (216 : ℚ)) ((448 : ℚ), (216 : ℚ)) = 256 := by
    unfold calculate_distance
    norm_num
    rw [show (65536 : ℝ) = 256 ^ 2 by norm_num, Real.sqrt_sq (by norm_num : (0:ℝ) ≤ 256)]
  have ha : calculate_angle ((192 : ℚ), (216 : ℚ)) ((448 : ℚ), (216 : ℚ)) = 0 := by
    unfold calculate_angle
    rw [show Complex.arg ⟨(((448 : ℚ) - 192 : ℚ) : ℝ), (((216 : ℚ) - 216 : ℚ) : ℝ)⟩ = 0 from
      Complex.arg_eq_zero_iff.mpr ⟨by push_cast; norm_num, by push_cast; norm_num⟩]
    simp
  norm_num [pyIntQ]
  refine ⟨by decide, by decide, ?_, ?_, ha⟩
  · rw [hd, pyIntR_nonneg _ (by norm_num), Int.floor_eq_iff]
    constructor <;> norm_num
  · rw [hd, pyIntR_nonneg _ (by norm_num), Int.floor_eq_iff]
    constructor <;> norm_num

/-- C4: for a placement fully inside the frame with opacity 1.0 and a
prepared (resized and, if rotated, rotated) asset carrying a 4-channel
alpha plane that is everywhere 255, the blend sets every pixel of the
placed region exactly to the corresponding pixel of that asset. -/
theorem overlay_core_opaque_inside_replaces (frame filtR : Img) (x y w h : ℤ) (i j c : ℕ)
    (hch : filtR.channels = 4) (hA : alphaOpaque filtR)
    (hx1 : 0 ≤ x - w.fdiv 2) (hy1 : 0 ≤ y - h.fdiv 2)
    (hx2 : x - w.fdiv 2 + w ≤ (frame.width : ℤ)) (hy2 : y - h.fdiv 2 + h ≤ (frame.height : ℤ))
    (hw : 0 < w) (hh : 0 < h)
    (hi1 : y - h.fdiv 2 ≤ (i : ℤ)) (hi2 : (i : ℤ) < y - h.fdiv 2 + h)
    (hj1 : x - w.fdiv 2 ≤ (j : ℤ)) (hj2 : (j : ℤ) < x - w.fdiv 2 + w) :
    (overlay_core frame filtR x y w h 1).px i j c =
      filtR.px ((i : ℤ) - (y - h.fdiv 2)).toNat ((j : ℤ) - (x - w.fdiv 2)).toNat c := by
  unfold overlay_core
  dsimp only
  rw [if_neg (by omega)]
  dsimp only
  rw [if_pos (by omega)]
  rw [show (0 ⊔ -(y - h.fdiv 2) + ((i : ℤ) - 0 ⊔ (y - h.fdiv 2))) = (i : ℤ) - (y - h.fdiv 2)
      by omega]
  rw [show (0 ⊔ -(x - w.fdiv 2) + ((j : ℤ) - 0 ⊔ (x - w.fdiv 2))) = (j : ℤ) - (x - w.fdiv 2)
      by omega]
  rw [if_pos hch, hA]
  exact blendChannel4_opaque _ _

/-- C4 (witness): a 1×1 fully-opaque asset placed at (0,0) on a 4×4 frame
with opacity 1 replaces the frame pixel with the asset pixel. -/
theorem overlay_core_opaque_inside_replaces_witness :
    wAsset4.channels = 4 ∧ alphaOpaque wAsset4 ∧
    (overlay_core wFrame wAsset4 0 0 1 1 1).px 0 0 0 = wAsset4.px 0 0 0 := by
  refine ⟨rfl, fun _ _ => rfl, ?_⟩
  have h := overlay_core_opaque_inside_replaces wFrame wAsset4 0 0 1 1 0 0 0
    rfl (fun _ _ => rfl) (by decide) (by decide) (by decide) (by decide)
    (by decide) (by decide) (by decide) (by decide) (by decide) (by decide)
  simpa using h

/-- C5: for every placement with positive dimensions, the blend succeeds,
the output frame keeps the input frame's dimensions, every pixel outside
the intersection of the placed bounding box with the frame is unchanged,
and when the bounding box misses the frame entirely the frame is returned
unchanged. -/
theorem overlay_filter_clipping_locality (resize : Img → ℤ → ℤ → Img)
    (rotate : Img → ℝ → Img) (frame filt : Img) (x y width height : ℤ)
    (angle : ℝ) (alpha : ℚ) (i j c : ℕ) (hw : 0 < width) (hh : 0 < height) :
    (overlay_filter resize rotate frame filt x y width height angle alpha).isSome = true ∧
    (blendOut resize rotate frame filt x y width height angle alpha).width = frame.width ∧
    (blendOut resize rotate frame filt x y width height angle alpha).height = frame.height ∧
    (((i : ℤ) < max 0 (y - height.fdiv 2) ∨
      min (frame.height : ℤ) (y - height.fdiv 2 + height) ≤ (i : ℤ) ∨
      (j : ℤ) < max 0 (x - width.fdiv 2) ∨
      min (frame.width : ℤ) (x - width.fdiv 2 + width) ≤ (j : ℤ)) →
      (blendOut resize rotate frame filt x y width height angle alpha).px i j c
        = frame.px i j c) ∧
    ((x - width.fdiv 2 + width ≤ 0 ∨ y - height.fdiv 2 + height ≤ 0 ∨
      (frame.width : ℤ) ≤ x - width.fdiv 2 ∨ (frame.height : ℤ) ≤ y - height.fdiv 2) →
      blendOut resize rotate frame filt x y width height angle alpha = frame) := by
  have hsome : overlay_filter resize rotate frame filt x y width height angle alpha =
      some (overlay_core frame
        (if angle = 0 then resize filt width height
         else rotate (resize filt width height) angle) x y width height alpha) := by
    unfold overlay_filter
    rw [if_neg (by omega)]
  have hout : blendOut resize rotate frame filt x y width height angle alpha =
      overlay_core frame
        (if angle = 0 then resize filt width height
         else rotate (resize filt width height) angle) x y width height alpha := by
    unfold blendOut
    rw [hsome]
    rfl
  refine ⟨by rw [hsome]; rfl, ?_, ?_, ?_, ?_⟩
  · rw [hout]; exact overlay_core_width _ _ _ _ _ _ _
  · rw [hout]; exact overlay_core_height _ _ _ _ _ _ _
  · intro hcond; rw [hout]; exact overlay_core_outside _ _ _ _ _ _ _ _ _ _ hcond
  · intro hcond; rw [hout]; exact overlay_core_miss _ _ _ _ _ _ _ hcond

/-- C5 (witness): a 2×2 placement centered at (10,10) misses the 4×4 frame,
and the blend returns the frame byte-for-byte unchanged. -/
theorem overlay_filter_clipping_locality_witness :
    ((0 : ℤ) < 2) ∧
    blendOut wResize wRotate wFrame wAsset4 10 10 2 2 0 (9/10) = wFrame :=
  ⟨by decide,
   (overlay_filter_clipping_locality wResize wRotate wFrame wAsset4 10 10 2 2 0 (9/10) 0 0 0
     (by decide) (by decide)).2.2.2.2 (by decide)⟩

/-- C6: for every placement with positive dimensions and opacity 0.0, the
blend leaves every pixel of the frame unchanged, whether or not the
(prepared) asset carries an alpha channel. -/
theorem overlay_filter_opacity_zero_identity (resize : Img → ℤ → ℤ → Img)
    (rotate : Img → ℝ → Img) (frame filt : Img) (x y width height : ℤ)
    (angle : ℝ) (hw : 0 < width) (hh : 0 < height) :
    overlay_filter resize rotate frame filt x y width height angle 0 = some frame := by
  unfold overlay_filter
  rw [if_neg (by omega)]
  exact congrArg some (overlay_core_zero_alpha _ _ _ _ _ _)

/-- C6 (witness): the identity blend at a concrete 2×2 placement on the
4×4 frame. -/
theorem overlay_filter_opacity_zero_identity_witness :
    ((0 : ℤ) < 2) ∧
    overlay_filter wResize wRotate wFrame wAsset4 2 2 2 2 0 0 = some wFrame :=
  ⟨by decide,
   overlay_filter_opacity_zero_identity wResize wRotate wFrame wAsset4 2 2 2 2 0
     (by decide) (by decide)⟩

/-- C7: `calculate_angle` returns the signed angle in degrees of the vector
p1→p2 via the four-quadrant arctangent (`Complex.arg` of the vector), and
the value always lies in the half-open range (−180, 180]; the function is
total. -/
theorem calculate_angle_four_quadrant_range (p1 p2 : ℚ × ℚ) :
    calculate_angle p1 p2 ∈ Set.Ioc (-180 : ℝ) 180 := by
  unfold calculate_angle
  have hpi : (0 : ℝ) < 180 / Real.pi := by positivity
  constructor
  · have h := Complex.neg_pi_lt_arg
      ⟨((p2.1 - p1.1 : ℚ) : ℝ), ((p2.2 - p1.2 : ℚ) : ℝ)⟩
    have h2 := mul_lt_mul_of_pos_left h hpi
    calc (-180 : ℝ) = 180 / Real.pi * (-Real.pi) := by
          field_simp
      _ < _ := h2
  · have h := Complex.arg_le_pi
      ⟨((p2.1 - p1.1 : ℚ) : ℝ), ((p2.2 - p1.2 : ℚ) : ℝ)⟩
    have h2 := mul_le_mul_of_nonneg_left h (le_of_lt hpi)
    calc 180 / Real.pi * Complex.arg _ ≤ 180 / Real.pi * Real.pi := h2
      _ = 180 := div_mul_cancel₀ 180 Real.pi_ne_zero

/-- C8: after a first successful `load_filter_image` for a key, every later
call with the same key returns the identical cached asset and the identical
cache, independently of the disk (no further I/O or decode); and no call
ever evicts or replaces an existing cache entry. -/
theorem load_filter_image_cached_no_reload (cache cache2 : String → Option Img)
    (disk : String → Option Img) (name : String) (img : Img)
    (h : load_filter_image cache disk name = (some img, cache2)) :
    (∀ dsk : String → Option Img, load_filter_image cache2 dsk name = (some img, cache2)) ∧
    (∀ (c d : String → Option Img) (nm k : String) (v : Img),
      c k = some v → (load_filter_image c d nm).2 k = some v) := by
  constructor
  · intro dsk
    unfold load_filter_image at h ⊢
    split at h
    · exact absurd (congrArg Prod.fst h) (by simp)
    · rename_i fname hav
      split at h
      · rename_i i hc
        have h1 : some i = some img := congrArg Prod.fst h
        have h2 : cache = cache2 := congrArg Prod.snd h
        injection h1 with h3
        subst h3
        subst h2
        simp only [hc]
      · rename_i hcnone
        split at h
        · rename_i fi hd
          have h1 : some fi = some img := congrArg Prod.fst h
          have h2 : (fun k => if k = name then some fi else cache k) = cache2 :=
            congrArg Prod.snd h
          have hc2 : cache2 name = some img := by
            rw [← h2]
            injection h1 with h3
            subst h3
            simp
          simp only [hc2]
        · exact absurd (congrArg Prod.fst h) (by simp)
  · intro c d nm k v hc
    unfold load_filter_image
    split
    · exact hc
    · split
      · exact hc
      · rename_i hcnone
        split
        · rename_i fi hd
          dsimp only
          rw [if_neg]
          · exact hc
          · intro hk
            rw [hk] at hc
            rw [hcnone] at hc
            exact absurd hc (by simp)
        · exact hc

/-- C8 (witness): a first load of "sunglasses" from an empty cache
populates the cache, and a second call returns the identical asset and
cache even on a disk where every load fails. -/
theorem load_filter_image_cached_no_reload_witness :
    load_filter_image wCache0 wDisk "sunglasses" = (some wAsset4, wCache1) ∧
    load_filter_image wCache1 wDisk2 "sunglasses" = (some wAsset4, wCache1) :=
  ⟨rfl,
   (load_filter_image_cached_no_reload wCache0 wCache1 wDisk "sunglasses" wAsset4 rfl).1 wDisk2⟩

/-- C10: for every frame channel value, asset channel value, per-pixel
alpha byte and opacity in [0, 1], the blended output channel — a truncated
convex combination of the two inputs — lies between their minimum and
maximum, hence within [0, 255] with no overflow or wraparound. -/
theorem blendChannel4_convex_combination_bounds (f g A : Fin 256) (alpha : ℚ)
    (h0 : 0 ≤ alpha) (h1 : alpha ≤ 1) :
    min (f : ℕ) (g : ℕ) ≤ ((blendChannel4 f g A alpha) : ℕ) ∧
    ((blendChannel4 f g A alpha) : ℕ) ≤ max (f : ℕ) (g : ℕ) := by
  set t : ℚ := (A : ℚ) / 255 * alpha with ht
  have ht0 : 0 ≤ t := by positivity
  have ht1 : t ≤ 1 := by
    have hA : ((A : ℕ) : ℚ) ≤ 255 := by
      exact_mod_cast (by omega : (A : ℕ) ≤ 255)
    have hd : (A : ℚ) / 255 ≤ 1 := by
      rw [div_le_one (by norm_num)]
      exact hA
    rw [ht]
    exact mul_le_one₀ hd h0 h1
  set v : ℚ := (f : ℚ) * (1 - t) + (g : ℚ) * t with hv
  have hfmin : ((min (f : ℕ) (g : ℕ) : ℕ) : ℚ) ≤ (f : ℚ) := by push_cast; simp [min_le_left]
  have hgmin : ((min (f : ℕ) (g : ℕ) : ℕ) : ℚ) ≤ (g : ℚ) := by push_cast; simp [min_le_right]
  have hfmax : (f : ℚ) ≤ ((max (f : ℕ) (g : ℕ) : ℕ) : ℚ) := by push_cast; simp [le_max_left]
  have hgmax : (g : ℚ) ≤ ((max (f : ℕ) (g : ℕ) : ℕ) : ℚ) := by push_cast; simp [le_max_right]
  have hlo : ((min (f : ℕ) (g : ℕ) : ℕ) : ℚ) ≤ v := by nlinarith
  have hhi : v ≤ ((max (f : ℕ) (g : ℕ) : ℕ) : ℚ) := by nlinarith
  have hv0 : 0 ≤ v := le_trans (by positivity) hlo
  have hfl : pyIntQ v = ⌊v⌋ := by unfold pyIntQ; rw [if_pos hv0]
  have hlo2 : ((min (f : ℕ) (g : ℕ) : ℕ) : ℤ) ≤ ⌊v⌋ := Int.le_floor.mpr (by exact_mod_cast hlo)
  have hhi2 : ⌊v⌋ ≤ ((max (f : ℕ) (g : ℕ) : ℕ) : ℤ) := by
    have h3 : ⌊v⌋ ≤ ⌊((max (f : ℕ) (g : ℕ) : ℕ) : ℚ)⌋ := Int.floor_le_floor hhi
    rwa [Int.floor_natCast] at h3
  have hmax255 : max (f : ℕ) (g : ℕ) ≤ 255 := by
    have hfl2 := f.isLt
    have hgl2 := g.isLt
    omega
  show min (f : ℕ) (g : ℕ) ≤ ((pyIntQ v % 256).toNat) ∧
    ((pyIntQ v % 256).toNat) ≤ max (f : ℕ) (g : ℕ)
  rw [hfl]
  omega

/-- C10 (witness): the bounds at the concrete input f = 10, g = 200,
A = 128, opacity 1/2. -/
theorem blendChannel4_convex_combination_bounds_witness :
    ((0 : ℚ) ≤ 1/2 ∧ (1/2 : ℚ) ≤ 1) ∧
    (min ((10 : Fin 256) : ℕ) ((200 : Fin 256) : ℕ) ≤ ((blendChannel4 10 200 128 (1/2)) : ℕ) ∧
     ((blendChannel4 10 200 128 (1/2)) : ℕ) ≤ max ((10 : Fin 256) : ℕ) ((200 : Fin 256) : ℕ)) :=
  ⟨⟨by norm_num, by norm_num⟩,
   blendChannel4_convex_combination_bounds 10 200 128 (1/2) (by norm_num) (by norm_num)⟩

end SnapPy
